import Mathlib

/-!
Verification of the fetch-and-cache pipeline of the Origami Store
(`origami.py`): the disk image cache (`download_image`), the screenshot
fetcher (`get_app_screenshot_urls`), catalog normalization
(`_parse_v2_response`), the flatpak fallback catalog loader
(`_load_apps_via_flatpak`), the category guesser
(`_guess_category_from_id`), the installed-set parser
(`load_installed_apps`), and the operation workers (`install_app`,
`uninstall_app`, `update_app`, `update_all_apps`).

Python strings are modelled as Lean `String`, image bytes as `List Nat`,
decoded pixbufs as `Nat` (their identity is irrelevant), subprocess and
network outcomes as explicit inductive environments, and the on-disk
cache file for one URL as `Option (List Nat)` (present with contents, or
absent).
-/

namespace Origami

/-! ## Python string primitives

Kernel-reducible embeddings of the Python string operations the source
uses: `str.strip()`, `str.split('\t')`, `str.lower()` and the `in`
substring test, written by structural recursion over `List Char` so
concrete instances evaluate by `decide`/`rfl`. -/

/-- `str.strip()`: drop leading and trailing whitespace. -/
def pyStripList (cs : List Char) : List Char :=
  ((cs.dropWhile Char.isWhitespace).reverse.dropWhile Char.isWhitespace).reverse

/-- `str.strip()` on a `String`. -/
def pyStrip (s : String) : String :=
  ⟨pyStripList s.toList⟩

/-- Helper for `str.split(sep)`: split a character list at every
occurrence of `sep`, `acc` holding the reversed current field. -/
def pySplitAux (sep : Char) : List Char → List Char → List (List Char)
  | [], acc => [acc.reverse]
  | c :: cs, acc =>
    if c = sep then acc.reverse :: pySplitAux sep cs []
    else pySplitAux sep cs (c :: acc)

/-- `str.split(sep)` for a single-character separator: always returns at
least one field; adjacent separators yield empty fields. -/
def pySplit (s : String) (sep : Char) : List String :=
  (pySplitAux sep s.toList []).map (fun l => ⟨l⟩)

/-- `str.lower()`. -/
def pyLower (s : String) : String :=
  ⟨s.toList.map Char.toLower⟩

/-- Whether `p` is a prefix of `l`. -/
def listIsPrefixOf : List Char → List Char → Bool
  | [], _ => true
  | _ :: _, [] => false
  | a :: ps, b :: ls => a = b && listIsPrefixOf ps ls

/-- Whether `p` occurs as a contiguous sublist of `l`. -/
def listContainsSub (l p : List Char) : Bool :=
  match l with
  | [] => p.isEmpty
  | _ :: ls => listIsPrefixOf p l || listContainsSub ls p

/-- Python's `term in s` substring test. -/
def strContains (s term : String) : Bool :=
  listContainsSub s.toList term.toList

/-! ## Disk image cache: `download_image` (origami.py lines 445-475) -/

/-- Raw image bytes on disk or on the wire. -/
abbrev Bytes := List Nat

/-- A decoded pixbuf; its identity is irrelevant to the claims, so it is
an opaque natural number. -/
abbrev Pixbuf := Nat

/-- Outcome of `requests.get(url, timeout=10, stream=True)` followed by
streaming the body to the cache file:
* `failure`: transport error or non-2xx raised by `raise_for_status`,
  before the cache file is opened for writing;
* `streamFail written`: an error while iterating the body chunks, after
  the prefix `written` has already been written to the (truncated)
  cache file;
* `success body`: the full body was retrieved and written. -/
inductive NetResult where
  | failure
  | streamFail (written : Bytes)
  | success (body : Bytes)
deriving DecidableEq, Repr

/-- Environment for one `download_image` call on one URL: the pixbuf
decoder `GdkPixbuf.Pixbuf.new_from_file_at_scale` at the call's
`max_size` (`none` = the file fails to decode), and the network outcome
for that URL. -/
structure ImgEnv where
  decode : Bytes → Option Pixbuf
  net : NetResult

/-- The network-fetch half of `download_image`: the `try` block starting
at the `requests.get` (origami.py lines 461-475).  At its entry the
cache file for the URL is always absent (either it never existed, or the
corrupt-cache branch just removed it).  Returns the call's result and
the cache file's state after the call. -/
def fetchFromNet (env : ImgEnv) : Option Pixbuf × Option Bytes :=
  match env.net with
  | .failure => (none, none)
  | .streamFail written => (none, some written)
  | .success body =>
    match env.decode body with
    | some img => (some img, some body)
    | none => (none, some body)

/-- `download_image(url, max_size)` for a single URL: `cache` is the
cache file for this URL (`os.path.exists` + contents).  Returns the
returned pixbuf (`none` on any failure) and the cache file afterwards. -/
def download_image (env : ImgEnv) (url : String) (cache : Option Bytes) :
    Option Pixbuf × Option Bytes :=
  if url = "" then (none, cache)
  else
    match cache with
    | some bytes =>
      match env.decode bytes with
      | some img => (some img, some bytes)
      | none => fetchFromNet env
    | none => fetchFromNet env

/-! ## Screenshot fetcher: `get_app_screenshot_urls` (lines 429-443) -/

/-- `get_app_icon_url(app_id)` (origami.py lines 425-427). -/
def get_app_icon_url (app_id : String) : String :=
  "https://flathub.org/repo/appstream/x86_64/icons/128x128/" ++ app_id ++ ".png"

/-- Outcome of `requests.get` on the per-app detail endpoint:
`exn` models any exception (transport error or malformed JSON);
`httpResp status shots` a response with the given status code, where
`shots` is the `screenshots` field (`none` = field absent) and each
entry is its `imgDesktopUrl` field (`none` = key absent). -/
inductive DetailResp where
  | exn
  | httpResp (status : Nat) (shots : Option (List (Option String)))
deriving DecidableEq, Repr

/-- `get_app_screenshot_urls(app_id)` (origami.py lines 429-443). -/
def get_app_screenshot_urls (resp : DetailResp) (app_id : String) :
    List String :=
  match resp with
  | .exn => [get_app_icon_url app_id]
  | .httpResp status shots =>
    let screenshots := shots.getD []
    if status = 200 ∧ screenshots ≠ [] then
      (screenshots.take 1).map (fun s => s.getD "")
    else
      [get_app_icon_url app_id]

/-! ## Catalog normalization: `_parse_v2_response` (lines 722-745) -/

/-- One raw JSON object from the v2 catalog API; each field is `none`
when the key is absent.  `categories` and `screenshots` values are kept
abstract as lists of strings (their element shape is never inspected by
the parser). -/
structure RawApp where
  id : Option String := none
  flatpakAppId : Option String := none
  name : Option String := none
  summary : Option String := none
  description : Option String := none
  categories : Option (List String) := none
  icon : Option String := none
  screenshots : Option (List String) := none
deriving DecidableEq, Repr

/-- A normalized catalog entry as built by `_parse_v2_response`: a dict
with all six keys always present. -/
structure AppRecord where
  flatpakAppId : String
  name : String
  summary : String
  categories : List String
  icon : String
  screenshots : List String
deriving DecidableEq, Repr

/-- The dict literal built for each entry in the `isinstance(data, list)`
branch of `_parse_v2_response` (origami.py lines 726-734). -/
def normalize_v2_list_entry (app : RawApp) : AppRecord where
  flatpakAppId := app.id.getD (app.flatpakAppId.getD "")
  name := app.name.getD (app.id.getD "")
  summary := app.summary.getD (app.description.getD "No description available")
  categories := app.categories.getD []
  icon := app.icon.getD ""
  screenshots := app.screenshots.getD []

/-- The dict literal built for each entry in the `'apps' in data`
branch of `_parse_v2_response` (origami.py lines 736-744); the source
duplicates the code of the list branch verbatim. -/
def normalize_v2_dict_entry (app : RawApp) : AppRecord where
  flatpakAppId := app.id.getD (app.flatpakAppId.getD "")
  name := app.name.getD (app.id.getD "")
  summary := app.summary.getD (app.description.getD "No description available")
  categories := app.categories.getD []
  icon := app.icon.getD ""
  screenshots := app.screenshots.getD []

/-- The shape of the decoded JSON handed to `_parse_v2_response`:
a top-level list, a dict (whose `apps` key is `none` when absent), or
any other JSON value. -/
inductive V2Data where
  | list (apps : List RawApp)
  | dict (apps : Option (List RawApp))
  | other
deriving DecidableEq, Repr

/-- `_parse_v2_response(data)` (origami.py lines 722-745). -/
def parse_v2_response : V2Data → List AppRecord
  | .list apps => apps.map normalize_v2_list_entry
  | .dict (some apps) => apps.map normalize_v2_dict_entry
  | .dict none => []
  | .other => []

/-! ## Category guesser: `_guess_category_from_id` (lines 804-823) -/

/-- Python's `any(term in s for term in terms)`. -/
def anyTermIn (terms : List String) (s : String) : Bool :=
  terms.any (fun term => strContains s term)

/-- `_guess_category_from_id(app_id)` (origami.py lines 804-823). -/
def guess_category_from_id (app_id : String) : List String :=
  let l := pyLower app_id
  if anyTermIn ["firefox", "chrome", "telegram", "discord", "thunderbird"] l then
    ["Network"]
  else if anyTermIn ["libreoffice", "writer", "calc"] l then
    ["Office"]
  else if anyTermIn ["gimp", "inkscape", "blender", "krita"] l then
    ["Graphics"]
  else if anyTermIn ["vlc", "audacity", "spotify"] l then
    ["AudioVideo"]
  else if anyTermIn ["steam", "game", "chess", "puzzle"] l then
    ["Game"]
  else if anyTermIn ["code", "atom", "eclipse", "git"] l then
    ["Development"]
  else if anyTermIn ["calculator", "archive", "file"] l then
    ["Utility"]
  else
    ["Other"]

/-- The keyword→category table of `_guess_category_from_id`, written as
data in source order. -/
def keyword_rules : List (List String × String) :=
  [ (["firefox", "chrome", "telegram", "discord", "thunderbird"], "Network"),
    (["libreoffice", "writer", "calc"], "Office"),
    (["gimp", "inkscape", "blender", "krita"], "Graphics"),
    (["vlc", "audacity", "spotify"], "AudioVideo"),
    (["steam", "game", "chess", "puzzle"], "Game"),
    (["code", "atom", "eclipse", "git"], "Development"),
    (["calculator", "archive", "file"], "Utility") ]

/-- The spec's description of the category guesser: "a fixed
keyword→category lookup over substrings of the id (first matching rule
wins; default category Other if none match)", as a lookup over
`keyword_rules`.  Stated-side definition for the refinement conjunct of
the C6 theorem. -/
def guess_category_spec (app_id : String) : List String :=
  match keyword_rules.find? (fun r => anyTermIn r.1 (pyLower app_id)) with
  | some r => [r.2]
  | none => ["Other"]

/-! ## Fallback catalog loader: `_load_apps_via_flatpak` (lines 747-802) -/

/-- A catalog entry built by the flatpak fallback branch: a dict with
only the four keys `flatpakAppId`, `name`, `summary`, `categories`
(no `icon`, no `screenshots`). -/
structure FallbackApp where
  flatpakAppId : String
  name : String
  summary : String
  categories : List String
deriving DecidableEq, Repr

/-- Outcome of the `subprocess.run(['flatpak', 'remote-ls', ...])` call:
`exn` models any exception raised by the invocation itself (e.g.
`TimeoutExpired`, `FileNotFoundError`); `completed rc lines` a finished
process with return code `rc` whose stripped stdout split on newlines
gives `lines`. -/
inductive RemoteLsResult where
  | exn
  | completed (returncode : Int) (lines : List String)
deriving DecidableEq, Repr

/-- The per-line parse inside `_load_apps_via_flatpak` (origami.py
lines 757-773): skip blank lines and lines without a tab; split on tab;
require at least two parts; empty name column falls back to the id;
missing third column falls back to the placeholder.  When the guards
hold, `parts` has length ≥ 2, so the `getD` defaults are never used. -/
def parse_remote_ls_line (line : String) : Option FallbackApp :=
  if pyStrip line ≠ "" ∧ strContains line "\t" then
    let parts := pySplit line (Char.ofNat 9)
    if parts.length ≥ 2 then
      let app_id := parts.getD 0 ""
      let name := if parts.getD 1 "" ≠ "" then parts.getD 1 "" else app_id
      let description := if parts.length > 2 then parts.getD 2 "" else
        "No description available"
      some { flatpakAppId := app_id, name := name, summary := description,
             categories := guess_category_from_id app_id }
    else none
  else none

/-- The hard-coded `popular_apps` seed list (origami.py lines 778-797). -/
def popular_apps : List FallbackApp :=
  [ { flatpakAppId := "org.mozilla.firefox", name := "Firefox",
      summary := "Web browser", categories := ["Network"] },
    { flatpakAppId := "org.libreoffice.LibreOffice", name := "LibreOffice",
      summary := "Office suite", categories := ["Office"] },
    { flatpakAppId := "org.gimp.GIMP", name := "GIMP",
      summary := "Image editor", categories := ["Graphics"] },
    { flatpakAppId := "org.videolan.VLC", name := "VLC",
      summary := "Media player", categories := ["AudioVideo"] },
    { flatpakAppId := "org.blender.Blender", name := "Blender",
      summary := "3D creation suite", categories := ["Graphics"] },
    { flatpakAppId := "com.valvesoftware.Steam", name := "Steam",
      summary := "Gaming platform", categories := ["Game"] },
    { flatpakAppId := "org.telegram.desktop", name := "Telegram",
      summary := "Messaging app", categories := ["Network"] },
    { flatpakAppId := "com.spotify.Client", name := "Spotify",
      summary := "Music streaming", categories := ["AudioVideo"] },
    { flatpakAppId := "org.gnome.gedit", name := "Text Editor",
      summary := "Simple text editor", categories := ["Utility"] },
    { flatpakAppId := "org.kde.kate", name := "Kate",
      summary := "Advanced text editor", categories := ["Development"] } ]

/-- `_load_apps_via_flatpak()` (origami.py lines 747-802).  When the
subprocess call raises, the `except` branch only logs, skipping the
seed-list block, and the empty `apps` accumulator is returned. -/
def load_apps_via_flatpak (res : RemoteLsResult) : List FallbackApp :=
  match res with
  | .exn => []
  | .completed rc lines =>
    let apps := if rc = 0 then lines.filterMap parse_remote_ls_line else []
    if apps.isEmpty then popular_apps else apps

/-! ## Installed-set parser: `load_installed_apps` (lines 601-624) -/

/-- One installed-app card handed to `add_installed_app_card`. -/
structure InstalledEntry where
  app_id : String
  name : String
  description : String
deriving DecidableEq, Repr

/-- The per-line parse inside `load_installed_apps` (origami.py lines
610-619): skip blank lines; split on tab; require at least two parts
(a line with fewer is skipped, producing no entry); the
`parts[1] if len(parts) > 1 else app_id` name default is therefore
unreachable inside the `len(parts) >= 2` guard.  When the guards hold,
`parts` has length ≥ 2, so the `getD` defaults are never used. -/
def parse_installed_line (line : String) : Option InstalledEntry :=
  if pyStrip line ≠ "" then
    let parts := pySplit line (Char.ofNat 9)
    if parts.length ≥ 2 then
      let app_id := parts.getD 0 ""
      let name := if parts.length > 1 then parts.getD 1 "" else app_id
      let description := if parts.length > 2 then parts.getD 2 "" else
        "No description available"
      some { app_id := app_id, name := name, description := description }
    else none
  else none

/-- The successful path of `load_installed_apps()` over the stripped
stdout lines of `flatpak list --app --columns=application,name,description`. -/
def load_installed_apps (lines : List String) : List InstalledEntry :=
  lines.filterMap parse_installed_line

/-! ## Operation workers (lines 1002-1144) -/

/-- Outcome of the package-manager subprocess for one operation:
`exited code outLines stderr` is a process that ran to completion
(`outLines` its stdout split on newlines — stderr is merged into stdout
for `install`; `stderr` its captured stderr for the `subprocess.run`
based operations); `exn e` models the invocation itself raising, with
`e` the exception's text. -/
inductive ProcOutcome where
  | exited (code : Int) (outLines : List String) (stderr : String)
  | exn (e : String)
deriving DecidableEq, Repr

/-- `self.current_operations`: a dict from app id to in-progress label,
as an association list with unique keys. -/
abbrev OpsMap := List (String × String)

/-- `self.current_operations[app_id] = label`. -/
def setOp (ops : OpsMap) (app_id label : String) : OpsMap :=
  (app_id, label) :: ops.filter (fun p => p.1 ≠ app_id)

/-- `if app_id in self.current_operations: del self.current_operations[app_id]`
(keys are unique, so filtering out the key is the dict deletion). -/
def removeOp (ops : OpsMap) (app_id : String) : OpsMap :=
  ops.filter (fun p => p.1 ≠ app_id)

/-- `self.installed_apps.add(app_id)` on the `set` of installed ids. -/
def installedAdd (inst : List String) (app_id : String) : List String :=
  if app_id ∈ inst then inst else app_id :: inst

/-- `self.installed_apps.discard(app_id)`. -/
def installedDiscard (inst : List String) (app_id : String) : List String :=
  inst.filter (fun x => x ≠ app_id)

/-- Observable effects of one operation worker: the operations map and
installed set afterwards, every message posted to the status sink in
order, and whether a `load_installed_apps` reload was scheduled. -/
structure OpEffects where
  ops : OpsMap
  installed : List String
  status : List String
  reload : Bool
deriving DecidableEq, Repr

/-- `install_app` and its `install_worker` (origami.py lines 1002-1041):
set the operation entry, stream each non-blank stdout line as a status
message, classify by exit code — adding to the installed set and
scheduling a reload only on exit 0 — and in `finally` delete the
operation entry. -/
def install_app (app_id name : String) (ops0 : OpsMap) (inst0 : List String)
    (out : ProcOutcome) : OpEffects :=
  let ops1 := setOp ops0 app_id ("Installing " ++ name ++ "...")
  let pre := ["Installing " ++ name ++ "..."]
  match out with
  | .exited code outLines _ =>
    let stream := (outLines.filter (fun l => pyStrip l ≠ "")).map
      (fun l => "Installing " ++ name ++ ": " ++ pyStrip l)
    if code = 0 then
      { ops := removeOp ops1 app_id
        installed := installedAdd inst0 app_id
        status := pre ++ stream ++ ["Successfully installed " ++ name]
        reload := true }
    else
      { ops := removeOp ops1 app_id
        installed := inst0
        status := pre ++ stream ++ ["Failed to install " ++ name]
        reload := false }
  | .exn e =>
    { ops := removeOp ops1 app_id
      installed := inst0
      status := pre ++ ["Error installing " ++ name ++ ": " ++ e]
      reload := false }

/-- `uninstall_app`'s `uninstall_worker` (origami.py lines 1063-1089),
after the confirmation dialog was accepted: set the operation entry,
classify by exit code — discarding from the installed set and scheduling
a reload only on exit 0 — and in `finally` delete the operation entry. -/
def uninstall_app (app_id name : String) (ops0 : OpsMap) (inst0 : List String)
    (out : ProcOutcome) : OpEffects :=
  let ops1 := setOp ops0 app_id ("Uninstalling " ++ name ++ "...")
  let pre := ["Uninstalling " ++ name ++ "..."]
  match out with
  | .exited code _ stderr =>
    if code = 0 then
      { ops := removeOp ops1 app_id
        installed := installedDiscard inst0 app_id
        status := pre ++ ["Successfully uninstalled " ++ name]
        reload := true }
    else
      { ops := removeOp ops1 app_id
        installed := inst0
        status := pre ++ ["Failed to uninstall " ++ name ++ ": " ++ stderr]
        reload := false }
  | .exn e =>
    { ops := removeOp ops1 app_id
      installed := inst0
      status := pre ++ ["Error uninstalling " ++ name ++ ": " ++ e]
      reload := false }

/-- `update_app`'s `update_worker` (origami.py lines 1091-1117): set the
operation entry, classify by exit code, and in `finally` delete the
operation entry and always schedule a `load_installed_apps` reload. -/
def update_app (app_id name : String) (ops0 : OpsMap) (inst0 : List String)
    (out : ProcOutcome) : OpEffects :=
  let ops1 := setOp ops0 app_id ("Updating " ++ name ++ "...")
  let pre := ["Updating " ++ name ++ "..."]
  match out with
  | .exited code _ _ =>
    if code = 0 then
      { ops := removeOp ops1 app_id
        installed := inst0
        status := pre ++ ["Successfully updated " ++ name]
        reload := true }
    else
      { ops := removeOp ops1 app_id
        installed := inst0
        status := pre ++ ["No updates available for " ++ name]
        reload := true }
  | .exn e =>
    { ops := removeOp ops1 app_id
      installed := inst0
      status := pre ++ ["Error updating " ++ name ++ ": " ++ e]
      reload := true }

/-- `update_all_apps`'s `update_all_worker` (origami.py lines
1119-1144): no operation entry is tracked; the `load_installed_apps`
reload is issued after the exit-code classification, still inside the
`try`, so it happens on completion with any exit code but not when the
invocation raises. -/
def update_all_apps (ops0 : OpsMap) (inst0 : List String)
    (out : ProcOutcome) : OpEffects :=
  let pre := ["Updating all applications..."]
  match out with
  | .exited code _ _ =>
    if code = 0 then
      { ops := ops0, installed := inst0
        status := pre ++ ["All applications updated successfully"]
        reload := true }
    else
      { ops := ops0, installed := inst0
        status := pre ++ ["Update completed with some issues"]
        reload := true }
  | .exn e =>
    { ops := ops0, installed := inst0
      status := pre ++ ["Error updating applications: " ++ e]
      reload := false }

/-! # Claim theorems -/

/-- C1: For every URL whose cache file exists on disk but fails to
decode, a single call to `download_image` deletes that cache file (on a
subsequent network failure nothing is left on disk), does not return the
stale/corrupt data (any returned pixbuf decodes the freshly fetched
body), and proceeds in the same call to fetch the image from the network
and decode the freshly written file. -/
theorem c1_corrupt_cache_self_heals (env : ImgEnv) (url : String)
    (bytes : Bytes) (hurl : url ≠ "") (hdec : env.decode bytes = none) :
    download_image env url (some bytes) = fetchFromNet env ∧
    (env.net = .failure → (download_image env url (some bytes)).2 = none) ∧
    (∀ body, env.net = .success body →
      download_image env url (some bytes) = (env.decode body, some body)) ∧
    (∀ img, (download_image env url (some bytes)).1 = some img →
      ∃ body, env.net = .success body ∧ env.decode body = some img) := by
  have hmain : download_image env url (some bytes) = fetchFromNet env := by
    simp [download_image, hurl, hdec]
  refine ⟨hmain, ?_, ?_, ?_⟩
  · intro h
    rw [hmain]
    simp [fetchFromNet, h]
  · intro body h
    rw [hmain]
    cases hd : env.decode body <;> simp [fetchFromNet, h, hd]
  · intro img h
    rw [hmain] at h
    cases hn : env.net with
    | failure => simp [fetchFromNet, hn] at h
    | streamFail w => simp [fetchFromNet, hn] at h
    | success body =>
      refine ⟨body, rfl, ?_⟩
      cases hd : env.decode body <;> simp [fetchFromNet, hn, hd] at h
      simpa [hd] using h

/-- Witness for C1: a concrete corrupt cache entry, healed by a
successful refetch whose body decodes. -/
theorem c1_witness :
    ("u" ≠ "" ∧
      (ImgEnv.mk (fun b => if b = [9] then none else some 5)
        (.success [3])).decode [9] = none) ∧
    download_image
      (ImgEnv.mk (fun b => if b = [9] then none else some 5) (.success [3]))
      "u" (some [9]) = (some 5, some [3]) := by
  constructor
  · exact ⟨by decide, by simp⟩
  · have h := (c1_corrupt_cache_self_heals
      (ImgEnv.mk (fun b => if b = [9] then none else some 5) (.success [3]))
      "u" [9] (by decide) (by simp)).2.2.1 [3] rfl
    simpa using h

/-- C2 counterexample: with an empty cache, a successful download whose
freshly written file then fails to decode returns `none` (a decode
error) yet leaves the downloaded bytes in the cache file — the on-disk
cache state is changed by the erroring call. -/
theorem c2_counterexample :
    (download_image (ImgEnv.mk (fun _ => none) (.success [5])) "u" none).1
        = none ∧
    (download_image (ImgEnv.mk (fun _ => none) (.success [5])) "u" none).2
        = some [5] := by
  constructor <;> rfl

/-- C2 (amended): on the miss path `download_image` returns `none` on
any network or decode error with no effect beyond the logged failure and
the cache file itself: the cache is unchanged only when the error occurs
before the body is streamed to disk; a mid-stream failure leaves the
partial bytes and a decode failure of the freshly written file leaves
the full body on disk. -/
theorem c2_miss_path_errors (env : ImgEnv) (url : String) (hurl : url ≠ "") :
    (env.net = .failure → download_image env url none = (none, none)) ∧
    (∀ w, env.net = .streamFail w →
      download_image env url none = (none, some w)) ∧
    (∀ body, env.net = .success body → env.decode body = none →
      download_image env url none = (none, some body)) := by
  have hmain : download_image env url none = fetchFromNet env := by
    simp [download_image, hurl]
  refine ⟨?_, ?_, ?_⟩
  · intro h
    rw [hmain]
    simp [fetchFromNet, h]
  · intro w h
    rw [hmain]
    simp [fetchFromNet, h]
  · intro body h hd
    rw [hmain]
    simp [fetchFromNet, h, hd]

/-- Witness for C2 (amended): the three error shapes at concrete
environments on the URL "u". -/
theorem c2_witness :
    download_image (ImgEnv.mk (fun _ => some 5) .failure) "u" none
        = (none, none) ∧
    download_image (ImgEnv.mk (fun _ => some 5) (.streamFail [7])) "u" none
        = (none, some [7]) ∧
    download_image (ImgEnv.mk (fun _ => none) (.success [5])) "u" none
        = (none, some [5]) :=
  ⟨(c2_miss_path_errors (ImgEnv.mk (fun _ => some 5) .failure) "u"
      (by decide)).1 rfl,
   (c2_miss_path_errors (ImgEnv.mk (fun _ => some 5) (.streamFail [7])) "u"
      (by decide)).2.1 [7] rfl,
   (c2_miss_path_errors (ImgEnv.mk (fun _ => none) (.success [5])) "u"
      (by decide)).2.2 [5] rfl rfl⟩

/-- C3 counterexample: on a transport error the screenshot lookup
returns the one-element sequence holding the icon URL, not an empty
sequence as claimed. -/
theorem c3_counterexample :
    get_app_screenshot_urls .exn "org.x" = [get_app_icon_url "org.x"] ∧
    get_app_screenshot_urls .exn "org.x" ≠ [] :=
  ⟨rfl, by decide⟩

/-- C3 (amended): on success (status 200 and a non-empty screenshots
field) the lookup returns exactly the first screenshot entry's URL; on
any failure (transport error, non-200 status, or absent/empty
screenshots field) it returns the one-element sequence holding the icon
URL, so the result is never empty. -/
theorem c3_failure_falls_back_to_icon (resp : DetailResp) (app_id : String) :
    get_app_screenshot_urls resp app_id ≠ [] ∧
    (∀ status shots s rest, resp = .httpResp status shots → status = 200 →
      shots.getD [] = s :: rest →
      get_app_screenshot_urls resp app_id = [s.getD ""]) ∧
    ((resp = .exn ∨ ∃ status shots, resp = .httpResp status shots ∧
        (status ≠ 200 ∨ shots.getD [] = [])) →
      get_app_screenshot_urls resp app_id = [get_app_icon_url app_id]) := by
  refine ⟨?_, ?_, ?_⟩
  · cases resp with
    | exn => simp [get_app_screenshot_urls]
    | httpResp status shots =>
      by_cases h : status = 200 ∧ shots.getD [] ≠ []
      · obtain ⟨h1, h2⟩ := h
        cases hs : shots.getD [] with
        | nil => exact absurd hs h2
        | cons a t => simp [get_app_screenshot_urls, h1, hs]
      · simp only [get_app_screenshot_urls]
        rw [if_neg (by simpa using h)]
        simp
  · intro status shots s rest hresp h200 hshots
    subst hresp
    simp [get_app_screenshot_urls, h200, hshots]
  · intro h
    rcases h with h | ⟨status, shots, hresp, hfail⟩
    · subst h
      rfl
    · subst hresp
      rcases hfail with h | h <;>
        simp [get_app_screenshot_urls, h]

/-- Witness for C3 (amended): the success shape at a concrete 200
response and the failure shape at a concrete 404 response. -/
theorem c3_witness :
    get_app_screenshot_urls (.httpResp 200 (some [some "u1", some "u2"]))
        "a.b" = ["u1"] ∧
    get_app_screenshot_urls (.httpResp 404 (some [some "u1"])) "a.b"
        = [get_app_icon_url "a.b"] :=
  ⟨by
    have h := (c3_failure_falls_back_to_icon
      (.httpResp 200 (some [some "u1", some "u2"])) "a.b").2.1
      200 (some [some "u1", some "u2"]) (some "u1") [some "u2"] rfl rfl rfl
    simpa using h,
   (c3_failure_falls_back_to_icon (.httpResp 404 (some [some "u1"]))
      "a.b").2.2 (Or.inr ⟨404, some [some "u1"], rfl, Or.inl (by decide)⟩)⟩

/-- C4: catalog normalization is total — every normalized record has all
six fields set by construction of `AppRecord` — and the defaults are as
enumerated: summary defaults to "No description available" (when neither
`summary` nor its alias `description` is present), categories default to
the empty list, name defaults to the id, icon and screenshots default to
empty; the dict branch normalizer applies the same defaults. -/
theorem c4_normalization_defaults (app : RawApp) :
    (app.summary = none → app.description = none →
      (normalize_v2_list_entry app).summary = "No description available") ∧
    (app.categories = none → (normalize_v2_list_entry app).categories = []) ∧
    (∀ i, app.name = none → app.id = some i →
      (normalize_v2_list_entry app).name = i) ∧
    (app.icon = none → (normalize_v2_list_entry app).icon = "") ∧
    (app.screenshots = none →
      (normalize_v2_list_entry app).screenshots = []) ∧
    normalize_v2_dict_entry app = normalize_v2_list_entry app := by
  refine ⟨?_, ?_, ?_, ?_, ?_, rfl⟩
  · intro h1 h2
    simp [normalize_v2_list_entry, h1, h2]
  · intro h
    simp [normalize_v2_list_entry, h]
  · intro i h1 h2
    simp [normalize_v2_list_entry, h1, h2]
  · intro h
    simp [normalize_v2_list_entry, h]
  · intro h
    simp [normalize_v2_list_entry, h]

/-- Witness for C4: a raw record with only the `id` key present takes
every default. -/
theorem c4_witness :
    (normalize_v2_list_entry { id := some "org.x" }).summary
        = "No description available" ∧
    (normalize_v2_list_entry { id := some "org.x" }).categories = [] ∧
    (normalize_v2_list_entry { id := some "org.x" }).name = "org.x" ∧
    (normalize_v2_list_entry { id := some "org.x" }).icon = "" ∧
    (normalize_v2_list_entry { id := some "org.x" }).screenshots = [] :=
  ⟨(c4_normalization_defaults { id := some "org.x" }).1 rfl rfl,
   (c4_normalization_defaults { id := some "org.x" }).2.1 rfl,
   (c4_normalization_defaults { id := some "org.x" }).2.2.1 "org.x" rfl rfl,
   (c4_normalization_defaults { id := some "org.x" }).2.2.2.1 rfl,
   (c4_normalization_defaults { id := some "org.x" }).2.2.2.2.1 rfl⟩

/-- C10: the two parsing branches of `_parse_v2_response` — a top-level
JSON list versus a dict whose `apps` key holds the same list — produce
identical output sequences, because the duplicated per-entry dict
literals agree. -/
theorem c10_list_and_dict_branches_agree (apps : List RawApp) :
    parse_v2_response (.list apps) = parse_v2_response (.dict (some apps)) :=
  rfl

/-- C5 counterexample: when the `remote-ls` subprocess invocation itself
raises (e.g. a timeout), the `except` branch skips the seed-list block
and the fallback loader returns the empty sequence — refuting "the
fallback branch never returns an empty sequence". -/
theorem c5_counterexample : load_apps_via_flatpak .exn = [] :=
  rfl

/-- C5 (amended): whenever the `remote-ls` subprocess completes (with
any exit code) and zero entries are parsed, the loader returns the fixed
hard-coded seed list, and on every completed invocation the result is
non-empty; the fallback branch returns an empty sequence exactly when
the subprocess invocation itself raises. -/
theorem c5_seed_list_on_empty (res : RemoteLsResult) :
    (load_apps_via_flatpak res = [] ↔ res = .exn) ∧
    (∀ rc lines, res = .completed rc lines →
      (if rc = 0 then lines.filterMap parse_remote_ls_line else []) = [] →
      load_apps_via_flatpak res = popular_apps) := by
  constructor
  · cases res with
    | exn => simp [load_apps_via_flatpak]
    | completed rc lines =>
      simp only [load_apps_via_flatpak]
      constructor
      · intro h
        by_cases he :
            (if rc = 0 then lines.filterMap parse_remote_ls_line else [])
              = []
        · rw [if_pos (by simpa using he)] at h
          exact absurd h (by decide)
        · rw [if_neg (by simpa using he)] at h
          exact absurd h he
      · intro h
        exact absurd h (by simp)
  · intro rc lines hres he
    subst hres
    simp only [load_apps_via_flatpak]
    rw [if_pos (by simpa using he)]

/-- Witness for C5 (amended): a completed call whose single output line
parses to nothing yields the seed list. -/
theorem c5_witness :
    (if (0 : Int) = 0 then ["nope"].filterMap parse_remote_ls_line
      else []) = [] ∧
    load_apps_via_flatpak (.completed 0 ["nope"]) = popular_apps :=
  ⟨by decide,
   (c5_seed_list_on_empty (.completed 0 ["nope"])).2 0 ["nope"] rfl
     (by decide)⟩

/-- C6: the category guesser maps `org.mozilla.firefox` to `["Network"]`
and `org.gimp.GIMP` to `["Graphics"]`; any id whose lowercase form
contains none of the keyword substrings maps to `["Other"]`; and in
general it returns the category of the first matching rule of
`keyword_rules` (the `find?`-based `guess_category_spec`). -/
theorem c6_guess_category (app_id : String) :
    guess_category_from_id "org.mozilla.firefox" = ["Network"] ∧
    guess_category_from_id "org.gimp.GIMP" = ["Graphics"] ∧
    ((∀ r ∈ keyword_rules, anyTermIn r.1 (pyLower app_id) = false) →
      guess_category_from_id app_id = ["Other"]) ∧
    guess_category_from_id app_id = guess_category_spec app_id := by
  have hmain : ∀ s, guess_category_from_id s = guess_category_spec s := by
    intro s
    cases h1 : anyTermIn ["firefox", "chrome", "telegram", "discord",
        "thunderbird"] (pyLower s) <;>
    cases h2 : anyTermIn ["libreoffice", "writer", "calc"] (pyLower s) <;>
    cases h3 : anyTermIn ["gimp", "inkscape", "blender", "krita"]
        (pyLower s) <;>
    cases h4 : anyTermIn ["vlc", "audacity", "spotify"] (pyLower s) <;>
    cases h5 : anyTermIn ["steam", "game", "chess", "puzzle"] (pyLower s) <;>
    cases h6 : anyTermIn ["code", "atom", "eclipse", "git"] (pyLower s) <;>
    cases h7 : anyTermIn ["calculator", "archive", "file"] (pyLower s) <;>
    simp [guess_category_from_id, guess_category_spec, keyword_rules,
      List.find?, h1, h2, h3, h4, h5, h6, h7]
  refine ⟨by decide, by decide, ?_, hmain app_id⟩
  intro hall
  rw [hmain app_id]
  have hnone :
      keyword_rules.find? (fun r => anyTermIn r.1 (pyLower app_id))
        = none := by
    rw [List.find?_eq_none]
    intro x hx
    simp [hall x hx]
  simp [guess_category_spec, hnone]

/-- Witness for C6: `com.example.zzz` matches no keyword rule and
resolves to `["Other"]`. -/
theorem c6_witness :
    (∀ r ∈ keyword_rules, anyTermIn r.1 (pyLower "com.example.zzz")
        = false) ∧
    guess_category_from_id "com.example.zzz" = ["Other"] :=
  ⟨by decide, (c6_guess_category "com.example.zzz").2.2.1 (by decide)⟩

/-- C9 counterexample: a non-blank output line with only the id column
(no tab) is skipped entirely by the `len(parts) >= 2` guard — no entry
with the name defaulted to the id is produced, refuting the claimed
name default. -/
theorem c9_counterexample :
    pyStrip "org.foo.Bar" ≠ "" ∧
    load_installed_apps ["org.foo.Bar"] = [] := by
  constructor <;> decide

/-- C9 (amended): a non-blank line with at least two tab-separated
columns yields an entry with id and name taken from the first two
columns and the description defaulting to "No description available"
when the third column is missing; a line with fewer than two columns is
skipped and yields no entry (so the `name = id` default branch is
unreachable). -/
theorem c9_installed_line_parse (line : String) :
    (∀ id nm rest, pyStrip line ≠ "" →
      pySplit line (Char.ofNat 9) = id :: nm :: rest →
      parse_installed_line line = some
        { app_id := id, name := nm,
          description := rest.headD "No description available" }) ∧
    ((pySplit line (Char.ofNat 9)).length < 2 →
      parse_installed_line line = none) := by
  constructor
  · intro id nm rest hstrip hsplit
    cases rest with
    | nil => simp [parse_installed_line, hstrip, hsplit]
    | cons d t => simp [parse_installed_line, hstrip, hsplit]
  · intro hlen
    by_cases hstrip : pyStrip line = ""
    · simp [parse_installed_line, hstrip]
    · have h2 : ¬ ((pySplit line (Char.ofNat 9)).length ≥ 2) := by omega
      simp [parse_installed_line, hstrip, h2]

/-- Witness for C9 (amended): a two-column line produces an entry with
the placeholder description; a one-column line produces none. -/
theorem c9_witness :
    (pyStrip "a\tb" ≠ "" ∧ pySplit "a\tb" (Char.ofNat 9) = ["a", "b"] ∧
      (pySplit "a" (Char.ofNat 9)).length < 2) ∧
    parse_installed_line "a\tb" = some
      { app_id := "a", name := "b",
        description := "No description available" } ∧
    parse_installed_line "a" = none :=
  ⟨⟨by decide, by decide, by decide⟩,
   (c9_installed_line_parse "a\tb").1 "a" "b" [] (by decide) (by decide),
   (c9_installed_line_parse "a").2 (by decide)⟩

/-- Deleting the key from the operations dict makes a later lookup of
that key miss. -/
theorem lookup_removeOp (ops : OpsMap) (app_id : String) :
    (removeOp ops app_id).lookup app_id = none := by
  induction ops with
  | nil => rfl
  | cons p t ih =>
    obtain ⟨k, v⟩ := p
    by_cases h : k = app_id
    · simpa [removeOp, List.filter_cons, h] using ih
    · have hbeq : (app_id == k) = false := beq_eq_false_iff_ne.mpr (Ne.symm h)
      simpa [removeOp, List.filter_cons, h, List.lookup, hbeq] using ih

/-- Appending a one-element list puts that element last. -/
theorem getLast?_append_singleton {α : Type} (l : List α) (a : α) :
    (l ++ [a]).getLast? = some a :=
  (List.getLast?_append_cons l a []).trans rfl

/-- C7: for install, uninstall and update, on every outcome (zero exit,
non-zero exit, or an exception from the subprocess invocation itself)
the operations-map entry for the package id is removed and the last
message posted to the status sink is the operation's terminal success or
failure text. -/
theorem c7_cleanup_unconditional (app_id nm : String) (ops0 : OpsMap)
    (inst0 : List String) (out : ProcOutcome) :
    ((install_app app_id nm ops0 inst0 out).ops.lookup app_id = none ∧
     (uninstall_app app_id nm ops0 inst0 out).ops.lookup app_id = none ∧
     (update_app app_id nm ops0 inst0 out).ops.lookup app_id = none) ∧
    (∀ lines err, out = .exited 0 lines err →
      ((install_app app_id nm ops0 inst0 out).status.getLast?
          = some ("Successfully installed " ++ nm) ∧
       (uninstall_app app_id nm ops0 inst0 out).status.getLast?
          = some ("Successfully uninstalled " ++ nm) ∧
       (update_app app_id nm ops0 inst0 out).status.getLast?
          = some ("Successfully updated " ++ nm))) ∧
    (∀ c lines err, out = .exited c lines err → c ≠ 0 →
      ((install_app app_id nm ops0 inst0 out).status.getLast?
          = some ("Failed to install " ++ nm) ∧
       (uninstall_app app_id nm ops0 inst0 out).status.getLast?
          = some ("Failed to uninstall " ++ nm ++ ": " ++ err) ∧
       (update_app app_id nm ops0 inst0 out).status.getLast?
          = some ("No updates available for " ++ nm))) ∧
    (∀ e, out = .exn e →
      ((install_app app_id nm ops0 inst0 out).status.getLast?
          = some ("Error installing " ++ nm ++ ": " ++ e) ∧
       (uninstall_app app_id nm ops0 inst0 out).status.getLast?
          = some ("Error uninstalling " ++ nm ++ ": " ++ e) ∧
       (update_app app_id nm ops0 inst0 out).status.getLast?
          = some ("Error updating " ++ nm ++ ": " ++ e))) := by
  refine ⟨⟨?_, ?_, ?_⟩, ?_, ?_, ?_⟩
  · cases out with
    | exited c lines err =>
      by_cases hc : c = 0 <;> simp [install_app, hc, lookup_removeOp]
    | exn e => simp [install_app, lookup_removeOp]
  · cases out with
    | exited c lines err =>
      by_cases hc : c = 0 <;> simp [uninstall_app, hc, lookup_removeOp]
    | exn e => simp [uninstall_app, lookup_removeOp]
  · cases out with
    | exited c lines err =>
      by_cases hc : c = 0 <;> simp [update_app, hc, lookup_removeOp]
    | exn e => simp [update_app, lookup_removeOp]
  · intro lines err hout
    subst hout
    refine ⟨?_, ?_, ?_⟩
    · simp only [install_app]
      norm_num
      rw [← List.cons_append]
      exact getLast?_append_singleton _ _
    · simp [uninstall_app]
    · simp [update_app]
  · intro c lines err hout hc
    subst hout
    refine ⟨?_, ?_, ?_⟩
    · simp only [install_app]
      norm_num [hc]
      rw [← List.cons_append]
      exact getLast?_append_singleton _ _
    · simp [uninstall_app, hc]
    · simp [update_app, hc]
  · intro e hout
    subst hout
    exact ⟨getLast?_append_singleton _ _, getLast?_append_singleton _ _,
      getLast?_append_singleton _ _⟩

/-- Witness for C7: concrete runs of the three workers on id "a",
exercising the zero-exit, non-zero-exit and exception outcomes. -/
theorem c7_witness :
    ((install_app "a" "N" [] [] (.exited 0 ["pull"] "")).ops.lookup "a"
        = none ∧
     (install_app "a" "N" [] [] (.exited 0 ["pull"] "")).status.getLast?
        = some "Successfully installed N") ∧
    (uninstall_app "a" "N" [] [] (.exited 1 [] "boom")).status.getLast?
        = some "Failed to uninstall N: boom" ∧
    (update_app "a" "N" [] [] (.exn "oops")).status.getLast?
        = some "Error updating N: oops" :=
  ⟨⟨(c7_cleanup_unconditional "a" "N" [] [] (.exited 0 ["pull"] "")).1.1,
    by
      have h := (c7_cleanup_unconditional "a" "N" [] []
        (.exited 0 ["pull"] "")).2.1 ["pull"] "" rfl
      simpa using h.1⟩,
   by
     have h := (c7_cleanup_unconditional "a" "N" [] []
       (.exited 1 [] "boom")).2.2.1 1 [] "boom" rfl (by decide)
     simpa using h.2.1,
   by
     have h := (c7_cleanup_unconditional "a" "N" [] []
       (.exn "oops")).2.2.2 "oops" rfl
     simpa using h.2.2⟩

/-- C8 counterexample: an install that exits non-zero does not schedule
an installed-set reload, refuting "a load of the installed set is
scheduled ... on non-zero exit" for install. -/
theorem c8_counterexample :
    (install_app "a" "N" [] [] (.exited 1 [] "")).reload = false :=
  rfl

/-- C8 (amended): install and uninstall schedule an installed-set reload
exactly on zero exit; update schedules one on every outcome (its
`finally` block); updateAll schedules one whenever the subprocess
completes, with any exit code, but not when the invocation throws. -/
theorem c8_reload_conditions (app_id nm : String) (ops0 : OpsMap)
    (inst0 : List String) (out : ProcOutcome) :
    ((install_app app_id nm ops0 inst0 out).reload = true ↔
      ∃ lines err, out = .exited 0 lines err) ∧
    ((uninstall_app app_id nm ops0 inst0 out).reload = true ↔
      ∃ lines err, out = .exited 0 lines err) ∧
    (update_app app_id nm ops0 inst0 out).reload = true ∧
    ((update_all_apps ops0 inst0 out).reload = true ↔
      ∃ c lines err, out = .exited c lines err) := by
  refine ⟨?_, ?_, ?_, ?_⟩
  · cases out with
    | exited c lines err =>
      by_cases hc : c = 0 <;> simp [install_app, hc]
    | exn e => simp [install_app]
  · cases out with
    | exited c lines err =>
      by_cases hc : c = 0 <;> simp [uninstall_app, hc]
    | exn e => simp [uninstall_app]
  · cases out with
    | exited c lines err =>
      by_cases hc : c = 0 <;> simp [update_app, hc]
    | exn e => simp [update_app]
  · cases out with
    | exited c lines err =>
      by_cases hc : c = 0 <;> simp [update_all_apps, hc]
    | exn e => simp [update_all_apps]

end Origami
